import Mathlib

/-!
# Verification of the NMEA0183-to-serial forwarding plugin

Shallow embedding of `src/index.ts` (a SignalK plugin that forwards
well-framed NMEA0183 sentences from the host event bus to a serial port)
and proofs about it.

Strings handled by the frame check are modelled as `List Char`; status
messages published to the host are modelled as Lean `String`s collected in
logs inside an explicit plugin state.
-/

namespace NmeaSerial

/-! ## JavaScript string primitives used by the source -/

/-- The whitespace class removed by JavaScript `String.prototype.trim`:
tab, line feed, vertical tab, form feed, carriage return, space,
no-break space, BOM, the Unicode space separators and the line/paragraph
separators. -/
def isJsWhitespace (c : Char) : Bool :=
  c == ' ' || c == '\t' || c == '\n' || c == '\r' ||
  c == '\x0b' || c == '\x0c' || c == '\u00a0' || c == '\ufeff' ||
  c == '\u1680' || (0x2000 ≤ c.toNat && c.toNat ≤ 0x200a) ||
  c == '\u2028' || c == '\u2029' || c == '\u202f' || c == '\u205f' ||
  c == '\u3000'

/-- Drop the leading JavaScript-whitespace characters of a list. -/
def dropLeadingWs : List Char → List Char
  | [] => []
  | c :: cs => if isJsWhitespace c then dropLeadingWs cs else c :: cs

/-- JavaScript `String.prototype.trim`: remove leading and trailing
whitespace.  Trailing whitespace is removed by reversing, dropping leading
whitespace, and reversing back. -/
def trim (s : List Char) : List Char :=
  ((dropLeadingWs ((dropLeadingWs s).reverse)).reverse)

/-- JavaScript `String.prototype.charAt(i)`: the character at position `i`
when `0 ≤ i < length` (as a one-character string), and the empty string
otherwise.  Modelled as `Option Char`: `none` is the empty string, which
compares unequal to every one-character string, so an out-of-range access
is a harmless mismatch, never an error.  The index is an `Int` because the
source computes `len - 3`, which is negative for short inputs. -/
def charAt (s : List Char) (i : Int) : Option Char :=
  if 0 ≤ i ∧ i.toNat < s.length then some (s.getD i.toNat ' ') else none

/-- JavaScript `String.prototype.startsWith("$")`: the string is nonempty
and its first character is `'$'`. -/
def startsWithDollar : List Char → Bool
  | [] => false
  | c :: _ => c == '$'

/-! ## The frame validator

The check inside `nmeaHandler` (src/index.ts lines 62–65):

```
const data = `${sentence}`.trim()
const len = data.length
if (data.startsWith('$') && data.charAt(len - 3) === '*') { ... }
```
-/

/-- The frame validator: the exact acceptance condition of the forwarding
handler in the source.  Note the source has no explicit length test. -/
def isForwardable (raw : List Char) : Bool :=
  let data := trim raw
  let len : Int := data.length
  startsWithDollar data && (charAt data (len - 3) == some '*')

/-- The frame validator as the specification words it: the trimmed data
has length at least 4, starts with `'$'`, and its third-from-last
character is `'*'`. -/
def isForwardableSpec (raw : List Char) : Bool :=
  let data := trim raw
  let len := data.length
  decide (4 ≤ len) && (data.getD 0 ' ' == '$') && (data.getD (len - 3) ' ' == '*')

/-! ### Helper lemmas about the primitives -/

lemma charAt_of_neg (s : List Char) (i : Int) (h : i < 0) : charAt s i = none := by
  unfold charAt
  rw [if_neg]
  intro hc
  omega

lemma charAt_of_lt (s : List Char) (i : Int) (h0 : 0 ≤ i)
    (h1 : i.toNat < s.length) : charAt s i = some (s.getD i.toNat ' ') := by
  unfold charAt
  rw [if_pos ⟨h0, h1⟩]

lemma startsWithDollar_eq_getD (s : List Char) :
    startsWithDollar s = (s.getD 0 ' ' == '$') := by
  cases s <;> rfl

lemma some_beq_some (x y : Char) : (some x == some y) = (x == y) := rfl

lemma not_dollar_and_star (c : Char) : ((c == '$') && (c == '*')) = false := by
  cases h : c == '$'
  · simp
  · simp only [beq_iff_eq] at h
    subst h
    decide

/-- The acceptance condition of the source equals the specification's
three-condition framing check, for every input. -/
lemma frame_equiv (raw : List Char) : isForwardable raw = isForwardableSpec raw := by
  unfold isForwardable isForwardableSpec
  dsimp only
  generalize trim raw = data
  rcases Nat.lt_or_ge data.length 3 with hlen | hlen
  · -- length 0, 1, or 2: the index is negative, charAt yields none
    rw [charAt_of_neg data _ (by omega)]
    have h4 : ¬ (4 ≤ data.length) := by omega
    simp [h4]
  · rcases Nat.eq_or_lt_of_le hlen with hlen3 | hlen4
    · -- length exactly 3: the checked character is the first character,
      -- which cannot be both '$' and '*'
      rw [charAt_of_lt data _ (by omega) (by omega)]
      have hidx : ((data.length : Int) - 3).toNat = 0 := by omega
      rw [hidx, some_beq_some, startsWithDollar_eq_getD]
      have h4 : ¬ (4 ≤ data.length) := by omega
      simp [h4, not_dollar_and_star]
    · -- length at least 4: both sides compare the same two characters
      rw [charAt_of_lt data _ (by omega) (by omega)]
      have hidx : ((data.length : Int) - 3).toNat = data.length - 3 := by omega
      rw [hidx, some_beq_some, startsWithDollar_eq_getD]
      have h4 : (4 ≤ data.length) := by omega
      simp [h4, Bool.and_assoc]

/-! ## The serial transport handle

The module variable `serial` of the source holds either `null` or a
`SerialPort` object.  The `SerialPort` library is an external collaborator
whose code is not part of this repository; its write contract is modelled
from the specification. -/

/-- Model of one `SerialPort` handle: whether the port is confirmed open,
the list of arguments passed to `serial.write` calls, and the data
actually delivered to the open port. -/
structure SerialState where
  isOpen : Bool
  writeCalls : List (List Char)
  wire : List (List Char)
  deriving Repr, DecidableEq

/-- Modelled from the spec: the external `SerialPort.write` (not part of
this repository).  Per §4.2, "If the port is not open (null/closed), the
write is silently skipped"; when the port is open, the line is put on the
wire.  The call itself is always recorded in `writeCalls`. -/
def SerialState.write (s : SerialState) (line : List Char) : SerialState :=
  { s with
    writeCalls := s.writeCalls ++ [line],
    wire := if s.isOpen then s.wire ++ [line] else s.wire }

/-- The data on the wire of an optional handle (`null` has written
nothing). -/
def wireOf : Option SerialState → List (List Char)
  | none => []
  | some s => s.wire

/-! ## The plugin state

Module-level mutable state of the source (`reportInterval`,
`forwardedCounter`, `serial`), plus the host-visible side-effect logs:
the timers currently scheduled by the host, the messages published via
`app.setPluginStatus`, and the messages published via
`app.setPluginError`. -/

structure PluginState where
  reportInterval : Option Nat
  activeTimers : List Nat
  forwardedCounter : Nat
  serial : Option SerialState
  statusLog : List String
  errorLog : List String
  deriving Repr, DecidableEq

/-! ## The handlers of `start` (src/index.ts lines 56–73) -/

/-- The status string published by the reporter tick. -/
def reportMessage (n : Nat) : String :=
  "Forwarded " ++ toString n ++ " NMEA0183 messages."

/-- The reporter callback (lines 56–59): publish the count, then reset
the counter to zero. -/
def reporter (st : PluginState) : PluginState :=
  { st with
    statusLog := st.statusLog ++ [reportMessage st.forwardedCounter],
    forwardedCounter := 0 }

/-- The forwarding handler (lines 61–73): trim the sentence; if the frame
check passes, increment the counter and, when the serial handle is
non-null, write the trimmed data followed by CRLF. -/
def nmeaHandler (st : PluginState) (sentence : List Char) : PluginState :=
  let data := trim sentence
  if isForwardable sentence then
    let st1 := { st with forwardedCounter := st.forwardedCounter + 1 }
    match st1.serial with
    | some s => { st1 with serial := some (s.write (data ++ ['\r', '\n'])) }
    | none => st1
  else
    st

/-- Deliver a list of sentences to the forwarding handler, in order. -/
def handleAll (st : PluginState) (msgs : List (List Char)) : PluginState :=
  msgs.foldl nmeaHandler st

/-! ## `stop` (src/index.ts lines 102–108) -/

/-- JavaScript `clearInterval(id)`: deschedule the timer with the given
id; a no-op when the id is not (or no longer) scheduled. -/
def clearTimer (timers : List Nat) (id : Nat) : List Nat :=
  timers.filter (fun t => t != id)

/-- The final status published by `stop` (uses `plugin.name`). -/
def stoppedMessage : String := "NMEA0183 to Serial Port Forwarder stopped."

/-- The `stop` callback: if `reportInterval` is non-null, clear it; then
publish the stopped status.  Note the source neither nulls
`reportInterval` nor touches `serial` or `forwardedCounter`. -/
def stop (st : PluginState) : PluginState :=
  let timers :=
    match st.reportInterval with
    | some id => clearTimer st.activeTimers id
    | none => st.activeTimers
  { st with
    activeTimers := timers,
    statusLog := st.statusLog ++ [stoppedMessage] }

/-! ## `start` (src/index.ts lines 75–96)

The body of the `try` block performs, in order: `SerialPort` construction,
attachment of the open/error handlers, event-bus subscription of
`nmeaHandler` on both channels, and `setInterval` of the reporter.  Each
of these calls into host or library code that may throw; the environment
below supplies each step's outcome (the thrown message, or its result). -/

structure StartEnv where
  mkSerial : Except String SerialState
  attachHandlers : Except String Unit
  subscribeBus : Except String Unit
  setTimer : Except String Nat

/-- The `try` block of `start`: run the steps in order, threading the
module state exactly as the source's assignments do (`serial` is assigned
as soon as construction succeeds, `reportInterval` once `setInterval`
returns), and report the first thrown message, if any. -/
def startBody (env : StartEnv) (st : PluginState) : PluginState × Option String :=
  match env.mkSerial with
  | .error e => (st, some e)
  | .ok s =>
    let st1 := { st with serial := some s }
    match env.attachHandlers with
    | .error e => (st1, some e)
    | .ok _ =>
      match env.subscribeBus with
      | .error e => (st1, some e)
      | .ok _ =>
        match env.setTimer with
        | .error e => (st1, some e)
        | .ok id =>
          ({ st1 with
             reportInterval := some id,
             activeTimers := st1.activeTimers ++ [id],
             statusLog := st1.statusLog ++ ["Started"] }, none)

/-- The error status published by the `catch` clause of `start`. -/
def startErrorMessage (e : String) : String := "Error starting plugin: " ++ e

/-- `start`: the `try` block wrapped in the `catch` that publishes the
thrown message via `app.setPluginError`.  Total: no exception escapes. -/
def start (env : StartEnv) (st : PluginState) : PluginState :=
  match startBody env st with
  | (st1, none) => st1
  | (st1, some e) => { st1 with errorLog := st1.errorLog ++ [startErrorMessage e] }

end NmeaSerial

/-! ## Claim theorems -/

namespace NmeaSerial

/-- C1: for every input string, the check inside the forwarding handler
accepts iff the trimmed value `data` has `len ≥ 4`, `data[0] = '$'` and
`data[len-3] = '*'`; acceptance depends only on these framing conditions. -/
theorem frame_check_iff_spec (raw : List Char) :
    isForwardable raw = isForwardableSpec raw :=
  frame_equiv raw

/-! ### Helper lemmas about the forwarding handler -/

lemma isForwardable_of_short (s : List Char) (h : (trim s).length < 4) :
    isForwardable s = false := by
  rw [frame_equiv]
  unfold isForwardableSpec
  dsimp only
  have h4 : ¬ (4 ≤ (trim s).length) := by omega
  simp [h4]

lemma nmeaHandler_drop (st : PluginState) (s : List Char)
    (h : isForwardable s = false) : nmeaHandler st s = st := by
  unfold nmeaHandler
  simp [h]

lemma nmeaHandler_counter (st : PluginState) (s : List Char) :
    (nmeaHandler st s).forwardedCounter =
      if isForwardable s then st.forwardedCounter + 1 else st.forwardedCounter := by
  unfold nmeaHandler
  dsimp only
  split
  · cases st.serial <;> rfl
  · rfl

lemma nmeaHandler_statusLog (st : PluginState) (s : List Char) :
    (nmeaHandler st s).statusLog = st.statusLog := by
  unfold nmeaHandler
  dsimp only
  split
  · cases st.serial <;> rfl
  · rfl

lemma handleAll_counter (msgs : List (List Char)) (st : PluginState) :
    (handleAll st msgs).forwardedCounter =
      st.forwardedCounter + (msgs.filter (fun s => isForwardable s)).length := by
  induction msgs generalizing st with
  | nil => rfl
  | cons m ms ih =>
    show (handleAll (nmeaHandler st m) ms).forwardedCounter = _
    rw [ih, nmeaHandler_counter]
    cases h : isForwardable m
    · simp [List.filter_cons, h]
    · simp [List.filter_cons, h]
      omega

lemma handleAll_statusLog (msgs : List (List Char)) (st : PluginState) :
    (handleAll st msgs).statusLog = st.statusLog := by
  induction msgs generalizing st with
  | nil => rfl
  | cons m ms ih =>
    show (handleAll (nmeaHandler st m) ms).statusLog = _
    rw [ih, nmeaHandler_statusLog]

/-- C2: any string whose trimmed form is shorter than 4 characters is
rejected — the handler forwards nothing and leaves the state untouched —
and the access `charAt (len - 3)` on such a string is the total,
out-of-range-safe lookup (`none`), never an out-of-bounds error. -/
theorem short_input_rejected (st : PluginState) (s : List Char)
    (h : (trim s).length < 4) :
    isForwardable s = false ∧ nmeaHandler st s = st := by
  have hf := isForwardable_of_short s h
  exact ⟨hf, nmeaHandler_drop st s hf⟩

/-- C2 witness: the three-character sentence `"$ab"`. -/
theorem short_input_rejected_witness :
    (trim ['$', 'a', 'b']).length < 4 ∧
      (isForwardable ['$', 'a', 'b'] = false ∧
        nmeaHandler
          { reportInterval := none, activeTimers := [], forwardedCounter := 0,
            serial := none, statusLog := [], errorLog := [] } ['$', 'a', 'b'] =
          { reportInterval := none, activeTimers := [], forwardedCounter := 0,
            serial := none, statusLog := [], errorLog := [] }) :=
  ⟨by decide,
   short_input_rejected
     { reportInterval := none, activeTimers := [], forwardedCounter := 0,
       serial := none, statusLog := [], errorLog := [] }
     ['$', 'a', 'b'] (by decide)⟩

/-- C8: a sentence that fails the framing check is silently dropped: the
handler returns the state unchanged (counter, serial handle and its write
history, status log and error log all intact), and it is a total function,
so no exception is raised. -/
theorem invalid_silent_drop (st : PluginState) (s : List Char)
    (h : isForwardable s = false) : nmeaHandler st s = st :=
  nmeaHandler_drop st s h

/-- C8 witness: the sentence `"no-dollar*1A"` (no leading `'$'`). -/
theorem invalid_silent_drop_witness :
    isForwardable ['n', 'o', '*', '1', 'A'] = false ∧
      nmeaHandler
        { reportInterval := some 0, activeTimers := [0], forwardedCounter := 5,
          serial := none, statusLog := [], errorLog := [] }
        ['n', 'o', '*', '1', 'A'] =
        { reportInterval := some 0, activeTimers := [0], forwardedCounter := 5,
          serial := none, statusLog := [], errorLog := [] } :=
  ⟨by decide,
   invalid_silent_drop
     { reportInterval := some 0, activeTimers := [0], forwardedCounter := 5,
       serial := none, statusLog := [], errorLog := [] }
     ['n', 'o', '*', '1', 'A'] (by decide)⟩

/-- C10: a sentence that passes the framing check increments the counter
unconditionally — also when the serial handle is null, in which case no
write happens at all — so the reported count can exceed the lines actually
written. -/
theorem counter_increments_without_serial (st : PluginState) (s : List Char)
    (hv : isForwardable s = true) :
    (nmeaHandler st s).forwardedCounter = st.forwardedCounter + 1 ∧
      (st.serial = none → (nmeaHandler st s).serial = none) := by
  constructor
  · rw [nmeaHandler_counter, hv]
    rfl
  · intro hn
    unfold nmeaHandler
    simp [hv, hn]

/-- C10 witness: `"$GPGGA,x*1A"` delivered while `serial` is null. -/
theorem counter_increments_without_serial_witness :
    isForwardable ['$', 'G', 'P', '*', '1', 'A'] = true ∧
      ((nmeaHandler
          { reportInterval := none, activeTimers := [], forwardedCounter := 7,
            serial := none, statusLog := [], errorLog := [] }
          ['$', 'G', 'P', '*', '1', 'A']).forwardedCounter = 7 + 1 ∧
        (({ reportInterval := none, activeTimers := [], forwardedCounter := 7,
            serial := none, statusLog := [], errorLog := [] } :
              PluginState).serial = none →
          (nmeaHandler
            { reportInterval := none, activeTimers := [], forwardedCounter := 7,
              serial := none, statusLog := [], errorLog := [] }
            ['$', 'G', 'P', '*', '1', 'A']).serial = none)) :=
  ⟨by decide,
   counter_increments_without_serial
     { reportInterval := none, activeTimers := [], forwardedCounter := 7,
       serial := none, statusLog := [], errorLog := [] }
     ['$', 'G', 'P', '*', '1', 'A'] (by decide)⟩

/-- C3: starting from a counter observed as 0 right after a reporter
tick, delivering any batch of sentences of which exactly `k` pass the
framing check and then letting the reporter tick publishes exactly
`"Forwarded k NMEA0183 messages."`, and the counter is 0 right after the
tick. -/
theorem counter_roundtrip (st : PluginState) (msgs : List (List Char))
    (h0 : st.forwardedCounter = 0) :
    (reporter (handleAll st msgs)).statusLog =
        st.statusLog ++
          [reportMessage ((msgs.filter (fun s => isForwardable s)).length)] ∧
      (reporter (handleAll st msgs)).forwardedCounter = 0 := by
  unfold reporter
  dsimp only
  rw [handleAll_statusLog, handleAll_counter, h0, Nat.zero_add]
  exact ⟨rfl, rfl⟩

/-- C3 witness: two valid sentences and one invalid one give the report
`"Forwarded 2 NMEA0183 messages."`. -/
theorem counter_roundtrip_witness :
    ({ reportInterval := some 0, activeTimers := [0], forwardedCounter := 0,
       serial := none, statusLog := [], errorLog := [] } :
         PluginState).forwardedCounter = 0 ∧
      ((reporter (handleAll
          { reportInterval := some 0, activeTimers := [0], forwardedCounter := 0,
            serial := none, statusLog := [], errorLog := [] }
          [['$', 'a', '*', '1', 'A'], ['b', 'a', 'd'],
            ['$', 'b', '*', '2', 'B']])).statusLog =
        [] ++
          [reportMessage (([['$', 'a', '*', '1', 'A'], ['b', 'a', 'd'],
            ['$', 'b', '*', '2', 'B']].filter
              (fun s => isForwardable s)).length)] ∧
       (reporter (handleAll
          { reportInterval := some 0, activeTimers := [0], forwardedCounter := 0,
            serial := none, statusLog := [], errorLog := [] }
          [['$', 'a', '*', '1', 'A'], ['b', 'a', 'd'],
            ['$', 'b', '*', '2', 'B']])).forwardedCounter = 0) :=
  ⟨rfl,
   counter_roundtrip
     { reportInterval := some 0, activeTimers := [0], forwardedCounter := 0,
       serial := none, statusLog := [], errorLog := [] }
     [['$', 'a', '*', '1', 'A'], ['b', 'a', 'd'], ['$', 'b', '*', '2', 'B']]
     rfl⟩

/-- C4: delivering a valid sentence while the transport is not open —
`serial` null, or a handle whose port is not open — puts nothing on the
wire; the handler is a total function, so no exception is raised and the
write is silently skipped. -/
theorem write_skip_when_not_open (st : PluginState) (sentence : List Char)
    (hv : isForwardable sentence = true)
    (h : st.serial = none ∨ ∃ s, st.serial = some s ∧ s.isOpen = false) :
    wireOf (nmeaHandler st sentence).serial = wireOf st.serial := by
  unfold nmeaHandler
  dsimp only
  rw [hv]
  rcases h with hn | ⟨s, hs, hopen⟩
  · simp [hn]
  · simp [hs, wireOf, SerialState.write, hopen]

/-- C4 witness: a valid sentence delivered to a constructed but never
opened port. -/
theorem write_skip_when_not_open_witness :
    isForwardable ['$', 'x', '*', '3', 'C'] = true ∧
      (({ reportInterval := none, activeTimers := [], forwardedCounter := 0,
          serial := some { isOpen := false, writeCalls := [], wire := [] },
          statusLog := [], errorLog := [] } : PluginState).serial = none ∨
        ∃ s, ({ reportInterval := none, activeTimers := [], forwardedCounter := 0,
                serial := some { isOpen := false, writeCalls := [], wire := [] },
                statusLog := [], errorLog := [] } : PluginState).serial = some s ∧
          s.isOpen = false) ∧
      wireOf (nmeaHandler
          { reportInterval := none, activeTimers := [], forwardedCounter := 0,
            serial := some { isOpen := false, writeCalls := [], wire := [] },
            statusLog := [], errorLog := [] }
          ['$', 'x', '*', '3', 'C']).serial =
        wireOf
          ({ reportInterval := none, activeTimers := [], forwardedCounter := 0,
             serial := some { isOpen := false, writeCalls := [], wire := [] },
             statusLog := [], errorLog := [] } : PluginState).serial :=
  ⟨by decide,
   Or.inr ⟨{ isOpen := false, writeCalls := [], wire := [] }, rfl, rfl⟩,
   write_skip_when_not_open
     { reportInterval := none, activeTimers := [], forwardedCounter := 0,
       serial := some { isOpen := false, writeCalls := [], wire := [] },
       statusLog := [], errorLog := [] }
     ['$', 'x', '*', '3', 'C'] (by decide)
     (Or.inr ⟨{ isOpen := false, writeCalls := [], wire := [] }, rfl, rfl⟩)⟩

/-- C7: when a sentence passes the framing check and the serial handle
exists, exactly one write call is issued, whose argument is exactly the
trimmed sentence followed by `"\r\n"` — no other framing, re-ordering or
batching. -/
theorem wire_format_exact (st : PluginState) (s : SerialState)
    (sentence : List Char) (hs : st.serial = some s)
    (hv : isForwardable sentence = true) :
    ∃ s2, (nmeaHandler st sentence).serial = some s2 ∧
      s2.writeCalls = s.writeCalls ++ [trim sentence ++ ['\r', '\n']] := by
  unfold nmeaHandler
  dsimp only
  rw [hv]
  simp only [hs]
  exact ⟨_, rfl, rfl⟩

/-- C7 witness: the sentence `"  $II*hh  "` with surrounding whitespace
is written as its trimmed text plus CRLF, in one call. -/
theorem wire_format_exact_witness :
    ({ reportInterval := none, activeTimers := [], forwardedCounter := 0,
       serial := some { isOpen := true, writeCalls := [], wire := [] },
       statusLog := [], errorLog := [] } : PluginState).serial =
        some { isOpen := true, writeCalls := [], wire := [] } ∧
      isForwardable [' ', '$', 'I', 'I', '*', 'h', 'h', ' '] = true ∧
      ∃ s2, (nmeaHandler
          { reportInterval := none, activeTimers := [], forwardedCounter := 0,
            serial := some { isOpen := true, writeCalls := [], wire := [] },
            statusLog := [], errorLog := [] }
          [' ', '$', 'I', 'I', '*', 'h', 'h', ' ']).serial = some s2 ∧
        s2.writeCalls =
          ({ isOpen := true, writeCalls := [], wire := [] } :
              SerialState).writeCalls ++
            [trim [' ', '$', 'I', 'I', '*', 'h', 'h', ' '] ++ ['\r', '\n']] :=
  ⟨rfl, by decide,
   wire_format_exact
     { reportInterval := none, activeTimers := [], forwardedCounter := 0,
       serial := some { isOpen := true, writeCalls := [], wire := [] },
       statusLog := [], errorLog := [] }
     { isOpen := true, writeCalls := [], wire := [] }
     [' ', '$', 'I', 'I', '*', 'h', 'h', ' '] rfl (by decide)⟩

/-! ### Helper lemmas about `stop` and `start` -/

lemma clearTimer_idem (ts : List Nat) (id : Nat) :
    clearTimer (clearTimer ts id) id = clearTimer ts id := by
  unfold clearTimer
  induction ts with
  | nil => rfl
  | cons t ts ih =>
    by_cases h : t = id
    · simp [h, ih]
    · simp [h, List.filter_cons, ih]

/-- C5: if any step of the `try` block of `start` — serial construction,
handler attachment, event-bus subscription, or timer setup — throws a
message `m`, then `start` returns normally (it is a total function, so
nothing propagates to the host) and publishes exactly one error status,
which contains `m`. -/
theorem start_catches_exceptions (env : StartEnv) (st : PluginState)
    (m : String) (h : (startBody env st).snd = some m) :
    (start env st).errorLog =
        (startBody env st).fst.errorLog ++ [startErrorMessage m] ∧
      ∃ pre, startErrorMessage m = pre ++ m := by
  refine ⟨?_, "Error starting plugin: ", rfl⟩
  unfold start
  rcases hb : startBody env st with ⟨st1, o⟩
  rw [hb] at h
  dsimp only at h
  subst h
  rfl

/-- C5 witness: `SerialPort` construction throwing `"boom"`. -/
theorem start_catches_exceptions_witness :
    (startBody
        { mkSerial := .error "boom", attachHandlers := .ok (),
          subscribeBus := .ok (), setTimer := .ok 0 }
        { reportInterval := none, activeTimers := [], forwardedCounter := 0,
          serial := none, statusLog := [], errorLog := [] }).snd =
        some "boom" ∧
      ((start
          { mkSerial := .error "boom", attachHandlers := .ok (),
            subscribeBus := .ok (), setTimer := .ok 0 }
          { reportInterval := none, activeTimers := [], forwardedCounter := 0,
            serial := none, statusLog := [], errorLog := [] }).errorLog =
        (startBody
            { mkSerial := .error "boom", attachHandlers := .ok (),
              subscribeBus := .ok (), setTimer := .ok 0 }
            { reportInterval := none, activeTimers := [], forwardedCounter := 0,
              serial := none, statusLog := [],
              errorLog := [] }).fst.errorLog ++
          [startErrorMessage "boom"] ∧
        ∃ pre, startErrorMessage "boom" = pre ++ "boom") :=
  ⟨rfl,
   start_catches_exceptions
     { mkSerial := .error "boom", attachHandlers := .ok (),
       subscribeBus := .ok (), setTimer := .ok 0 }
     { reportInterval := none, activeTimers := [], forwardedCounter := 0,
       serial := none, statusLog := [], errorLog := [] }
     "boom" rfl⟩

/-- C6: `stop` is idempotent: a second call — in any state, including one
where `start` was never called or failed partway, so `reportInterval` may
be null — raises no error (it is a total function) and changes nothing
beyond re-publishing the stopped status. -/
theorem stop_idempotent (st : PluginState) :
    stop (stop st) =
      { stop st with statusLog := (stop st).statusLog ++ [stoppedMessage] } := by
  obtain ⟨ri, ts, c, ser, sl, el⟩ := st
  cases ri with
  | none => simp [stop]
  | some id => simp [stop, clearTimer_idem]

/-- C9: `stop` cancels only the report timer (the timers other than the
one held in `reportInterval` stay scheduled) and appends the stopped
status; the serial handle, the forwarding counter, `reportInterval`
itself and the error log are all unchanged. -/
theorem stop_frame_only_timer (st : PluginState) :
    (stop st).serial = st.serial ∧
      (stop st).forwardedCounter = st.forwardedCounter ∧
      (stop st).reportInterval = st.reportInterval ∧
      (stop st).errorLog = st.errorLog ∧
      (stop st).statusLog = st.statusLog ++ [stoppedMessage] ∧
      ∀ t, t ∈ (stop st).activeTimers ↔
        (t ∈ st.activeTimers ∧ st.reportInterval ≠ some t) := by
  obtain ⟨ri, ts, c, ser, sl, el⟩ := st
  cases ri with
  | none => simp [stop]
  | some id =>
    refine ⟨rfl, rfl, rfl, rfl, rfl, ?_⟩
    intro t
    show t ∈ clearTimer ts id ↔ _
    unfold clearTimer
    simp [List.mem_filter, bne_iff_ne]
    intro _
    omega

end NmeaSerial
